import Mathlib

/-!
Shallow embedding of the negotiator configuration controller
(pkg/deploy/configuration.go, pkg/deploy dependency wait code, and
pkg/web/lastAction.go), with theorems checking the specified behaviour
against the embedded code.

Go maps are embedded as association lists, Go `(value, error)` returns as
pairs of options / `Except`, and external collaborators (cluster client,
template loader, decoder) as structures of pure functions supplied per
scenario.  Randomness (`rand.Intn`) and wall-clock reads (`time.Now`) are
threaded as explicit function parameters.
-/

namespace Negotiator

/-- One `k8api.EnvVar`: a name/value environment entry of a container. -/
structure EnvVar where
  name : String
  value : String
deriving DecidableEq, Repr

/-- A container of a deployment's pod template: we keep only its env list,
the single field the configuration code touches. -/
structure Container where
  env : List EnvVar
deriving DecidableEq, Repr

/-- An OpenShift `DeploymentConfig` as used by the configuration code:
its name, its labels (a Go map, embedded as an association list) and
`Spec.Template.Spec.Containers`. -/
structure DeploymentConfig where
  name : String
  labels : List (String × String)
  containers : List Container
deriving DecidableEq, Repr

/-- `Configuration`: what is being configured and why. -/
structure Configuration where
  deploymentName : String
  nameSpace : String
  action : String
  instanceID : String
deriving DecidableEq, Repr

/-- A kubernetes `Service`; the code only reads its name (`GetName`). -/
structure Service where
  name : String
deriving DecidableEq, Repr

/-- A batch `Job` resource; the configuration code treats it opaquely
(decode it, hand it to `CreateJobToWatch`). -/
structure Job where
deriving DecidableEq, Repr

/-- Go map lookup `m[k]` in its `v, ok := m[k]` form. -/
def lookupStr (m : List (String × String)) (k : String) : Option String :=
  (m.find? (fun p => p.1 == k)).map (fun p => p.2)

/-- Go map lookup `m[k]` in its plain form, where a missing key yields
the zero value `""`. -/
def lookupStrD (m : List (String × String)) (k : String) : String :=
  (lookupStr m k).getD ""

/-- Go `strings.Join(elems, sep)`. -/
def goStringsJoin (elems : List String) (sep : String) : String :=
  match elems with
  | [] => ""
  | x :: xs => xs.foldl (fun acc s => acc ++ sep ++ s) x

/-- Whether the character list `sub` is a leading block of `s`. -/
def hasPref : List Char → List Char → Bool
  | _, [] => true
  | [], _ :: _ => false
  | a :: as, b :: bs => a == b && hasPref as bs

/-- Whether `sub` occurs contiguously inside `s`
(Go `strings.Contains(s, sub)`). -/
def containsSub : List Char → List Char → Bool
  | [], sub => sub.isEmpty
  | c :: rest, sub => hasPref (c :: rest) sub || containsSub rest sub

/-- Go `strings.Contains(s, sub)` on strings. -/
def goContains (s sub : String) : Bool :=
  containsSub s.toList sub.toList

/-- Go `strings.ToLower` (character-wise lowering). -/
def goToLower (s : String) : String := String.mk (s.toList.map Char.toLower)

-- status values used by the controller (configuration.go)
def configInProgress : String := "in progress"
def configError : String := "failed"
def configComplete : String := "succeeded"

/-- `StatusKey` (configuration.go): the key the controller publishes
status under, `strings.Join([]string{instanceID, operation}, ":")`. -/
def StatusKey (instanceID operation : String) : String :=
  goStringsJoin [instanceID, operation] ":"

/-- The status key the last-action HTTP handler retrieves with
(pkg/web/lastAction.go): `planID` defaults to `"noplan"` when empty, and
the key is `strings.Join([]string{instance, planID, operation}, ":")`. -/
def lastActionStatusKey (inst planID operation : String) : String :=
  let planID := if planID == "" then "noplan" else planID
  goStringsJoin [inst, planID, operation] ":"

/-- A status store keyed by status key, abstracting the status backend the
`StatusPublisher` writes to and the `StatusRetriever` reads from.  The
stored value is the `Status` field of the `Status` record. -/
def StatusStore := List (String × String)

/-- Publishing a status records the value under the given key. -/
def publishStatus (store : StatusStore) (key status : String) : StatusStore :=
  (key, status) :: store

/-- The last-action lookup: `statusRetriever.Get` on the key the handler
derives from instance, plan and operation. -/
def lastActionGet (store : StatusStore) (inst planID operation : String) :
    Option String :=
  (store.find? (fun p => p.1 == lastActionStatusKey inst planID operation)).map
    (fun p => p.2)

/-! ## Dependency wait (waitForDependencies) -/

/-- A `Dispatched` handle: a dependency deployment that has been triggered
and is watched through its watch URL. -/
structure Dispatched where
  deploymentName : String
  watchURL : String
deriving DecidableEq, Repr

/-- Go `time.Time.Second()`: the second within the current minute, `0..59`,
of an absolute time expressed in seconds. -/
def goSecond (t : Nat) : Nat := t % 60

/-- The per-dependency polling goroutine body of `waitForDependencies`:
`bodies i` is the response body of the GET against the dependency's watch
URL on iteration `i`, and `times i` the absolute wall-clock time (seconds)
at iteration `i`'s timeout check; `t0` is the absolute time at which
`start := time.Now().UTC().Second()` was read.  The loop exits only via
`return` on a body containing the success marker; on the timeout check it
appends an error to the shared `depErrors` slice and keeps looping.  The
result is `some errs` when the goroutine returns within `fuel` iterations
(with its contribution to `depErrors`), `none` when it is still running. -/
def depPoll (bodies : Nat → String) (times : Nat → Nat) (name : String)
    (t0 : Nat) : Nat → List String → Nat → Option (List String)
  | _, _, 0 => none
  | i, errs, fuel + 1 =>
    let body := bodies i
    if goContains (goToLower body) "success" then some errs
    else
      let errs :=
        if ((goSecond (times i) : Int) - (goSecond t0 : Int) > 300 : Bool) then
          errs ++ ["Failed to deploy dependency: " ++ name]
        else errs
      depPoll bodies times name t0 (i + 1) errs fuel

/-- `waitForDependencies`: one polling goroutine per dispatched dependency
(all registered on `dependencyGroup`), then `dependencyGroup.Wait()`; the
`depErrors` contributions are joined into one error when non-empty.
`bodies` and `times` are keyed by watch URL (each goroutine performs its
own requests and clock reads), `starts` gives each goroutine's absolute
time at its loop start.  The outer result is `none` when some goroutine
has not returned within `fuel` iterations — `Wait` is still blocked — and
otherwise `some r` where `r` is the error value the function returns. -/
def waitForDependencies (bodies : String → Nat → String)
    (times : String → Nat → Nat) (starts : String → Nat)
    (dependencies : List Dispatched) (fuel : Nat) : Option (Option String) :=
  let results := dependencies.map (fun d =>
    depPoll (bodies d.watchURL) (times d.watchURL) d.deploymentName
      (starts d.watchURL) 0 [] fuel)
  if results.all Option.isSome then
    let depErrors := results.foldl (fun acc r => acc ++ r.getD []) []
    some (if depErrors.length > 0 then some (goStringsJoin depErrors "\n") else none)
  else none

/-! ## Shared wait-group interleavings (controller + job-watch goroutine)

The controller's `Configure` and a database strategy share one
`sync.WaitGroup`.  The parent thread executes, in source order:
the strategy's `wait.Add(1)` on entry, the `go func` spawn, the deferred
`wait.Done()` when the strategy returns, then the controller's
`waitGroup.Wait()` (enabled only when the counter is zero) after which the
descriptor is persisted and `Configure` returns.  The spawned watch
goroutine executes `wait.Add(1)`, its watch loop, then its deferred
`wait.Done()` — the `Add` happens inside the goroutine, after the spawn. -/

structure WGState where
  counter : Int
  parentPc : Nat
  watcherSpawned : Bool
  watcherPc : Nat
deriving DecidableEq, Repr

/-- One step of the parent thread: `0` = strategy entry `wait.Add(1)`,
`1` = spawn of the watch goroutine, `2` = deferred `wait.Done()` as the
strategy returns, `3` = the controller's `waitGroup.Wait()` (a no-op
unless the counter is zero), `4` = `Configure` has returned. -/
def stepParent (s : WGState) : WGState :=
  match s.parentPc with
  | 0 => { s with counter := s.counter + 1, parentPc := 1 }
  | 1 => { s with watcherSpawned := true, parentPc := 2 }
  | 2 => { s with counter := s.counter - 1, parentPc := 3 }
  | 3 => if s.counter == 0 then { s with parentPc := 4 } else s
  | _ => s

/-- One step of the watch goroutine (runnable only once spawned):
`0` = its `wait.Add(1)`, `1` = the watch loop body, `2` = its deferred
`wait.Done()`, `3` = finished. -/
def stepWatcher (s : WGState) : WGState :=
  if !s.watcherSpawned then s
  else
    match s.watcherPc with
    | 0 => { s with counter := s.counter + 1, watcherPc := 1 }
    | 1 => { s with watcherPc := 2 }
    | 2 => { s with counter := s.counter - 1, watcherPc := 3 }
    | _ => s

/-- Run a schedule: `true` steps the parent thread, `false` the watch
goroutine. -/
def runSched (sched : List Bool) (s : WGState) : WGState :=
  sched.foldl (fun st b => if b then stepParent st else stepWatcher st) s

/-- Initial state: counter zero, both threads at their first step, the
goroutine not yet spawned. -/
def wgInit : WGState := ⟨0, 0, false, 0⟩

/-! ## Client, templates, job options -/

/-- The cluster-API client facade consumed by the configuration code.
Each field embeds one method as a pure function; `Except` carries the Go
error return. -/
structure Client where
  getDeploymentConfigByName : String → String → Except String (Option DeploymentConfig)
  findDeploymentConfigsByLabel : String → List (String × String) → Except String (List DeploymentConfig)
  updateDeployConfigInNamespace : String → DeploymentConfig → Except String DeploymentConfig
  findJobByName : String → String → Except String (Option Job)
  findServiceByLabel : String → List (String × String) → Except String (List Service)
  createJobToWatch : Job → String → Except String Unit

/-- A loaded template; `executeTemplate` renders the named template with
the job options into a byte buffer. -/
structure Template where
  executeTemplate : String → List (String × String) → Except String (List Nat)

/-- The template loader collaborator. -/
structure TemplateLoader where
  load : String → Except String Template

/-- `jobOpts`, the Go `map[string]interface{}` of job parameters; every
value the code stores in it is a string (a missing key is the nil
interface, `lookupStr` then yields `none`). -/
def JobOpts := List (String × String)

/-- Go map assignment `m[k] = v`. -/
def JobOpts.set (m : JobOpts) (k v : String) : JobOpts :=
  (m.filter (fun p => p.1 != k)) ++ [(k, v)]

/-- The observable actions a configuration run performs, in order:
status publications, configurer invocations, template loads/renders, job
decodes, job submissions (`CreateJobToWatch`), watch-goroutine spawns and
descriptor persists. -/
inductive ConfigAction where
  | publish (key status description : String)
  | invoke (service : String)
  | templateLoad (name : String)
  | templateExec (name : String)
  | jobDecode
  | jobSubmit (ns : String)
  | spawnWatcher
  | updateDeploy (ns name : String)
deriving DecidableEq, Repr

/-- The outcome of one strategy `Configure` call: the returned descriptor
and error, the trace of actions performed, whether the call panicked, and
the decoded job handed to a spawned goroutine that has not yet submitted
it (mysql). -/
structure ConfigResult where
  dc : Option DeploymentConfig
  err : Option String
  actions : List ConfigAction
  panicked : Bool := false
  spawnedJob : Option Job := none
deriving Repr

/-- `letterBytes`, the password alphabet. -/
def letterBytes : String := "abcdefghijklmnopqrstuvwxyzABCDEFGHIJKLMNOPQRSTUVWXYZ0123456789"

/-- `genPass`: `draws i` embeds the `rand.Intn(len(letterBytes))` result of
the `i`-th iteration (reduced into range to keep the embedding total). -/
def genPass (draws : Nat → Nat) (length : Nat) : String :=
  String.mk ((List.range length).map (fun i =>
    letterBytes.toList.getD (draws i % letterBytes.length) 'a'))

/-! ## CacheRedisConfigure -/

/-- The cache strategy's env rewrite: the first entry named
`FH_REDIS_HOST` whose value differs from `"data-cache"` is rewritten to
`"data-cache"` and the loop breaks; entries already holding the value are
skipped without breaking. -/
def cacheRewriteEnv : List EnvVar → List EnvVar
  | [] => []
  | e :: rest =>
    if e.name == "FH_REDIS_HOST" && e.value != "data-cache" then
      { e with value := "data-cache" } :: rest
    else e :: cacheRewriteEnv rest

/-- `CacheRedisConfigure.Configure`. -/
def cacheRedisConfigure (statusKey : String) (deployment : DeploymentConfig)
    (_ns : String) : ConfigResult :=
  let a0 := [ConfigAction.publish statusKey configInProgress "starting configuration of cache "]
  if lookupStr deployment.labels "rhmap/name" == some "cache" then
    { dc := some deployment, err := none,
      actions := a0 ++ [.publish statusKey configInProgress "no need to configure own DeploymentConfig "] }
  else
    let a1 := a0 ++ [ConfigAction.publish statusKey configInProgress
      ("updating containers env for deployment " ++ deployment.name)]
    let dep := { deployment with
      containers := deployment.containers.map (fun c => { c with env := cacheRewriteEnv c.env }) }
    { dc := some dep, err := none, actions := a1 }

/-! ## DataMongoConfigure -/

def dataMongoEsName : String := "data-mongo"

/-- `constructMongoURL`; `replicaSet` is the interface value
`jobOpts["replicaSet"]`, where `none` is the nil interface: the
`"" != replicaSet` guard then holds and the `replicaSet.(string)`
assertion panics, embedded as a `none` result. -/
def constructMongoURL (host user pass db : String) (replicaSet : Option String) :
    Option String :=
  let url := "mongodb://" ++ user ++ ":" ++ pass ++ "@" ++ host ++ ":27017/" ++ db
  match replicaSet with
  | none => none
  | some r => if r == "" then some url else some (url ++ "?replicaSet=" ++ r)

/-- The scan of the data descriptor's container env: records the last
`MONGODB_ADMIN_PASSWORD` value as `admin-pass` (setting the found flag)
and the last `MONGODB_REPLICA_NAME` value as `replicaSet`. -/
def mongoEnvScan : List EnvVar → JobOpts → Bool → JobOpts × Bool
  | [], jobOpts, found => (jobOpts, found)
  | e :: rest, jobOpts, found =>
    let st :=
      if e.name == "MONGODB_ADMIN_PASSWORD" then (jobOpts.set "admin-pass" e.value, true)
      else (jobOpts, found)
    let jobOpts := if e.name == "MONGODB_REPLICA_NAME" then st.1.set "replicaSet" e.value else st.1
    mongoEnvScan rest jobOpts st.2

/-- Rewrites the first env entry with the given name, `none` if absent. -/
def setEnvVal : List EnvVar → String → String → Option (List EnvVar)
  | [], _, _ => none
  | e :: rest, n, v =>
    if e.name == n then some ({ e with value := v } :: rest)
    else (setEnvVal rest n v).map (fun r => e :: r)

/-- The upsert loop pattern of the strategies: rewrite the first entry
with the given name, append a new entry when none matched. -/
def upsertEnvVal (env : List EnvVar) (n v : String) : List EnvVar :=
  match setEnvVal env n v with
  | some env2 => env2
  | none => env ++ [⟨n, v⟩]

/-- `DataMongoConfigure.Configure`.  `decoder` embeds
`runtime.DecodeInto` with the universal decoder; `draws` the `rand`
source consumed by `genPass(16)`. -/
def dataMongoConfigure (statusKey : String) (tl : TemplateLoader)
    (decoder : List Nat → Except String Job) (draws : Nat → Nat)
    (client : Client) (deployment : DeploymentConfig) (ns : String) :
    ConfigResult :=
  let esName := dataMongoEsName
  let a0 := [ConfigAction.publish statusKey configInProgress
    ("starting configuration of data-mongo service for " ++ deployment.name)]
  if lookupStr deployment.labels "rhmap/name" == some esName then
    { dc := some deployment, err := none,
      actions := a0 ++ [.publish statusKey configInProgress "no need to configure data-mongo DeploymentConfig "] }
  else
    match client.findJobByName ns (deployment.name ++ "-dataconfig-job") with
    | .error e =>
      { dc := some deployment, err := none,
        actions := a0 ++ [.publish statusKey "error" ("error finding existing Job " ++ e)] }
    | .ok (some _) =>
      { dc := some deployment, err := none,
        actions := a0 ++ [.publish statusKey "complete"
          ("configuration job " ++ deployment.name ++ "-dataconfig-job already exists. No need to run again ")] }
    | .ok none =>
      match client.findDeploymentConfigsByLabel ns [("rhmap/name", esName)] with
      | .error e =>
        { dc := none, err := some e,
          actions := a0 ++ [.publish statusKey configError ("failed to find data DeploymentConfig. Cannot continue " ++ e)] }
      | .ok dataDc =>
        if dataDc.length == 0 then
          { dc := none, err := some "no data DeploymentConfig exists. Cannot continue",
            actions := a0 ++ [.publish statusKey configError "no data DeploymentConfig exists. Cannot continue"] }
        else
          match client.findServiceByLabel ns [("rhmap/name", esName)] with
          | .error e =>
            { dc := none, err := some e,
              actions := a0 ++ [.publish statusKey configError ("failed to find data service cannot continue " ++ e)] }
          | .ok dataService =>
            if dataService.length == 0 then
              { dc := none, err := some "no service for data found. Cannot continue",
                actions := a0 ++ [.publish statusKey configError "no service for data found. Cannot continue"] }
            else
              -- the source indexes dataDc[0].Spec.Template.Spec.Containers[0]
              let containerEnv := ((dataDc.headD ⟨"", [], []⟩).containers.headD ⟨[]⟩).env
              let scan := mongoEnvScan containerEnv [] false
              if !scan.2 then
                { dc := none, err := some "expected to find an admin password but there was non present",
                  actions := a0 ++ [.publish statusKey configError "expected to find an admin password but there was non present"] }
              else
                let jobOpts := scan.1
                let jobOpts := jobOpts.set "dbhost" (dataService.headD ⟨""⟩).name
                let jobOpts := jobOpts.set "admin-user" "admin"
                let jobOpts := jobOpts.set "database" deployment.name
                let jobOpts := jobOpts.set "name" deployment.name
                let jobOpts :=
                  match lookupStr deployment.labels "rhmap/guid" with
                  | some v => jobOpts.set "database" v
                  | none => jobOpts
                let jobOpts := jobOpts.set "database-pass" (genPass draws 16)
                let jobOpts := jobOpts.set "database-user" (lookupStrD jobOpts "database")
                match constructMongoURL (lookupStrD jobOpts "dbhost")
                    (lookupStrD jobOpts "database-user") (lookupStrD jobOpts "database-pass")
                    (lookupStrD jobOpts "database") (lookupStr jobOpts "replicaSet") with
                | none => { dc := none, err := none, panicked := true, actions := a0 }
                | some mongoURL =>
                  let deployment := { deployment with
                    containers := deployment.containers.map (fun c =>
                      { c with env := upsertEnvVal c.env "FH_MONGODB_CONN_URL" mongoURL }) }
                  let a1 := a0 ++ [ConfigAction.templateLoad "data-mongo-job"]
                  match tl.load "data-mongo-job" with
                  | .error e =>
                    { dc := none, err := some ("failed to load template data-mongo-job " ++ ": " ++ e),
                      actions := a1 ++ [.publish statusKey configError ("failed to load job template " ++ e)] }
                  | .ok tpl =>
                    let a2 := a1 ++ [ConfigAction.templateExec "data-mongo-job"]
                    match tpl.executeTemplate "data-mongo-job" jobOpts with
                    | .error e =>
                      let msg := "failed to execute template: " ++ ": " ++ e
                      { dc := none, err := some msg,
                        actions := a2 ++ [.publish statusKey configError msg] }
                    | .ok buf =>
                      let a3 := a2 ++ [ConfigAction.jobDecode]
                      match decoder buf with
                      | .error e =>
                        let msg := "failed to Decode job" ++ ": " ++ e
                        { dc := none, err := some msg,
                          actions := a3 ++ [.publish statusKey "error" msg] }
                      | .ok j =>
                        let a4 := a3 ++ [ConfigAction.jobSubmit ns]
                        match client.createJobToWatch j ns with
                        | .error e =>
                          { dc := none, err := some e,
                            actions := a4 ++ [.publish statusKey configError ("failed to CreateJobToWatch " ++ e)] }
                        | .ok _ =>
                          { dc := some deployment, err := none,
                            actions := a4 ++ [.spawnWatcher] }

/-! ## DataMysqlConfigure -/

/-- Modelled from the spec: the relational-database service-kind constant
`templateDataMysql` is defined outside the provided sources; the spec's
scenario catalogue names the mysql data service `data-mysql`, matching the
`data-mysql-job` template name in the provided source. -/
def templateDataMysql : String := "data-mysql"

/-- The `envFromOpts` table of the mysql env upsert loop, in source
order (Go map iteration order is unspecified; no theorem below depends on
the order). -/
def mysqlEnvFromOpts : List (String × String) :=
  [("MYSQL_USER", "user-username"), ("MYSQL_PASSWORD", "user-password"),
   ("MYSQL_DATABASE", "user-database")]

/-- The mysql env upsert loop over one container's env list. -/
def mysqlUpsertEnvs (env : List EnvVar) (jobOpts : JobOpts) : List EnvVar :=
  mysqlEnvFromOpts.foldl (fun env p => upsertEnvVal env p.1 (lookupStrD jobOpts p.2)) env

/-- `DataMysqlConfigure.Configure`. -/
def dataMysqlConfigure (statusKey : String) (tl : TemplateLoader)
    (decoder : List Nat → Except String Job) (draws : Nat → Nat)
    (client : Client) (deployment : DeploymentConfig) (ns : String) :
    ConfigResult :=
  let a0 := [ConfigAction.publish statusKey configInProgress
    ("starting configuration of data service for " ++ deployment.name)]
  if lookupStr deployment.labels "rhmap/name" == some templateDataMysql then
    { dc := some deployment, err := none,
      actions := a0 ++ [.publish statusKey configInProgress "no need to configure data-mysql DeploymentConfig "] }
  else
    match client.findDeploymentConfigsByLabel ns [("rhmap/name", templateDataMysql)] with
    | .error e =>
      { dc := none, err := some e,
        actions := a0 ++ [.publish statusKey configError ("failed to find data DeploymentConfig. Cannot continue " ++ e)] }
    | .ok dataDc =>
      if dataDc.length == 0 then
        { dc := none, err := some "no data DeploymentConfig exists. Cannot continue",
          actions := a0 ++ [.publish statusKey configError "no data DeploymentConfig exists. Cannot continue"] }
      else
        match client.findJobByName ns (deployment.name ++ "-dataconfig-job") with
        | .error e =>
          { dc := some deployment, err := none,
            actions := a0 ++ [.publish statusKey "error" ("error finding existing Job " ++ e)] }
        | .ok (some _) =>
          { dc := some deployment, err := none,
            actions := a0 ++ [.publish statusKey "complete"
              ("configuration job " ++ deployment.name ++ "-dataconfig-job already exists. No need to run again ")] }
        | .ok none =>
          match client.findServiceByLabel ns [("rhmap/name", templateDataMysql)] with
          | .error e =>
            { dc := none, err := some e,
              actions := a0 ++ [.publish statusKey configError ("failed to find data service cannot continue " ++ e)] }
          | .ok dataService =>
            if dataService.length == 0 then
              { dc := none, err := some "no service for data found. Cannot continue",
                actions := a0 ++ [.publish statusKey configError "no service for data found. Cannot continue"] }
            else
              -- the source indexes dataDc[0].Spec.Template.Spec.Containers[0]
              let containerEnv := ((dataDc.headD ⟨"", [], []⟩).containers.headD ⟨[]⟩).env
              match containerEnv.find? (fun e => e.name == "MYSQL_ROOT_PASSWORD") with
              | none =>
                { dc := none, err := some "expected to find an env var: MYSQL_ROOT_PASSWORD but it was not present",
                  actions := a0 ++ [.publish statusKey configError
                    "expected to find an env var: MYSQL_ROOT_PASSWORD but it was not present"] }
              | some rootPw =>
                let jobOpts := JobOpts.set [] "admin-password" rootPw.value
                let jobName := "data-mysql-job"
                let jobOpts := jobOpts.set "name" deployment.name
                let jobOpts := jobOpts.set "dbhost" (dataService.headD ⟨""⟩).name
                let jobOpts := jobOpts.set "admin-username" "root"
                let jobOpts := jobOpts.set "admin-database" "mysql"
                match lookupStr deployment.labels "rhmap/guid" with
                | none =>
                  { dc := none, err := some ("Could not find rhmap/guid for deployment: " ++ deployment.name),
                    actions := a0 }
                | some v =>
                  let v := if v == "" then deployment.name else v
                  let jobOpts := jobOpts.set "user-database" v
                  let jobOpts := jobOpts.set "user-password" (genPass draws 16)
                  let databaseUser := lookupStrD jobOpts "user-database"
                  let jobOpts := jobOpts.set "user-username" databaseUser
                  let jobOpts :=
                    if databaseUser.length > 16 then jobOpts.set "user-username" (databaseUser.take 16)
                    else jobOpts
                  let deployment := { deployment with
                    containers := deployment.containers.map (fun c =>
                      { c with env := mysqlUpsertEnvs c.env jobOpts }) }
                  let a1 := a0 ++ [ConfigAction.templateLoad jobName]
                  match tl.load jobName with
                  | .error e =>
                    { dc := none, err := some ("failed to load template " ++ jobName ++ ": " ++ e),
                      actions := a1 ++ [.publish statusKey configError ("failed to load job template " ++ e)] }
                  | .ok tpl =>
                    let a2 := a1 ++ [ConfigAction.templateExec jobName]
                    match tpl.executeTemplate jobName jobOpts with
                    | .error e =>
                      let msg := "failed to execute template: " ++ ": " ++ e
                      { dc := none, err := some msg,
                        actions := a2 ++ [.publish statusKey configError msg] }
                    | .ok buf =>
                      let a3 := a2 ++ [ConfigAction.jobDecode]
                      match decoder buf with
                      | .error e =>
                        let msg := "failed to Decode job" ++ ": " ++ e
                        { dc := none, err := some msg,
                          actions := a3 ++ [.publish statusKey "error" msg] }
                      | .ok j =>
                        -- the job is submitted by the spawned watch goroutine,
                        -- after Configure has already returned
                        { dc := some deployment, err := none,
                          actions := a3 ++ [.spawnWatcher], spawnedJob := some j }

/-- The mysql watch goroutine up to job submission: it calls
`CreateJobToWatch` itself and, on failure, publishes a terminal failure
status and returns — the error never reaches `Configure`'s caller.  The
watch-event loop that follows a successful submission is beyond this
model. -/
def dataMysqlWatchStart (statusKey : String) (client : Client) (j : Job)
    (ns : String) : List ConfigAction :=
  match client.createJobToWatch j ns with
  | .error e =>
    [.jobSubmit ns, .publish statusKey configError ("failed to CreateJobToWatch " ++ e)]
  | .ok _ => [.jobSubmit ns]

/-! ## EnvironmentServiceConfigController.Configure -/

/-- The result of the controller's `Configure`: the returned error and
the trace of actions. -/
structure CtrlResult where
  err : Option String
  actions : List ConfigAction
deriving Repr

/-- The loop body's `if err != nil { errs = append(errs, err.Error()) }`. -/
def appendErr (goErr : Option String) (errs : List String) : List String :=
  match goErr with
  | some e => errs ++ [e]
  | none => errs

/-- The service loop of `Configure`.  `configurerErr` abstracts the error
returned by `Factory(serviceName, …).Configure(client, deployment, ns)`
for each service name (the factory's panic on unknown kinds is outside
this model).  The loop mirrors the source faithfully, including that the
result of `c.Configure` is discarded and the `err` variable tested inside
the loop (`goErr` here) is the enclosing one, never reassigned in the
loop.  Returns the collected error strings, the final configured set and
the action trace. -/
def configureLoop (statusKey : String) (configurerErr : String → Option String)
    (goErr : Option String) :
    List DeploymentConfig → List String → List String →
    List String × List String × List ConfigAction
  | [], configured, errs => (errs, configured, [])
  | s :: rest, configured, errs =>
    let serviceName := lookupStrD s.labels "rhmap/name"
    if configured.contains serviceName then
      configureLoop statusKey configurerErr goErr rest configured errs
    else
      let acts := [ConfigAction.publish statusKey configInProgress ("configuring " ++ serviceName),
        ConfigAction.invoke serviceName]
      -- c.Configure(client, deployment, namespace): return value not assigned
      let _ := configurerErr serviceName
      let errs := appendErr goErr errs
      let r := configureLoop statusKey configurerErr goErr rest (serviceName :: configured) errs
      (r.1, r.2.1, acts ++ r.2.2)

/-- Go `fmt.Sprintf("%v", errs)` for a string slice. -/
def goFmtStrSlice (errs : List String) : String :=
  "[" ++ goStringsJoin errs " " ++ "]"

/-- `EnvironmentServiceConfigController.Configure`. -/
def controllerConfigure (client : Client) (configurerErr : String → Option String)
    (config : Configuration) : CtrlResult :=
  let deploymentName := config.deploymentName
  let ns := config.nameSpace
  let statusKey := StatusKey config.instanceID config.action
  match client.getDeploymentConfigByName ns deploymentName with
  | .error e =>
    { err := some ("unexpected error retrieving DeployConfig for deployment " ++ deploymentName ++ ": " ++ e),
      actions := [] }
  | .ok none =>
    { err := some ("could not find DeploymentConfig for " ++ deploymentName), actions := [] }
  | .ok (some deployment) =>
    match client.findDeploymentConfigsByLabel ns [("rhmap/type", "environmentService")] with
    | .error e =>
      { err := some e,
        actions := [.publish statusKey "error"
          ("failed to retrieve environment Service dcs during configuration of  " ++ deployment.name ++ " " ++ e)] }
    | .ok services =>
      let a0 := [ConfigAction.publish statusKey configInProgress
        ("found " ++ toString services.length ++ " services")]
      let r := configureLoop statusKey configurerErr none services [] []
      let errs := r.1
      let a1 := a0 ++ r.2.2
      -- waitGroup.Wait() precedes the persist (its interleaving behaviour
      -- is modelled separately by runSched)
      match client.updateDeployConfigInNamespace ns deployment with
      | .error e =>
        { err := some ("failed to update deployment after configuring it " ++ ": " ++ e),
          actions := a1 ++ [.updateDeploy ns deployment.name,
            .publish statusKey configError "failed to update DeployConfig after configuring it"] }
      | .ok _ =>
        if errs.length > 0 then
          { err := some (" some configuration jobs failed " ++ goFmtStrSlice errs),
            actions := a1 ++ [.updateDeploy ns deployment.name,
              .publish statusKey configError (" some configuration jobs failed " ++ goFmtStrSlice errs)] }
        else
          { err := none,
            actions := a1 ++ [.updateDeploy ns deployment.name,
              .publish statusKey configComplete "service configuration complete"] }

/-! ## Helper lemmas -/

/-- The controller publish key and the last-action lookup key (plan
omitted) differ for every instance and operation: the lookup key inserts
the seven extra characters `noplan:`. -/
theorem statusKey_ne_lastActionKey (i op : String) :
    StatusKey i op ≠ lastActionStatusKey i "" op := by
  intro h
  have h2 := congrArg String.length h
  simp [StatusKey, lastActionStatusKey, goStringsJoin, String.length_append] at h2
  have e1 : String.length ":" = 1 := rfl
  have e2 : String.length "noplan" = 6 := rfl
  omega

/-- If no polled body ever contains the success marker, the polling
goroutine never returns, whatever the clock does: the only loop exit is
the success check, and the timeout branch does not exit the loop. -/
theorem depPoll_no_success (bodies : Nat → String) (times : Nat → Nat)
    (name : String) (t0 : Nat)
    (h : ∀ j, goContains (goToLower (bodies j)) "success" = false) :
    ∀ fuel i errs, depPoll bodies times name t0 i errs fuel = none := by
  intro fuel
  induction fuel with
  | zero => intro i errs; rfl
  | succ n ih =>
    intro i errs
    simp only [depPoll, h i, if_false, Bool.false_eq_true]
    exact ih _ _

/-! ## C3 : status round-trip through the derived keys -/

/-- C3 counterexample: publishing the status "succeeded" under the
controller-derived key for instance "app1", operation "provision", then
retrieving through the last-action lookup with planID omitted yields
nothing at all — the two derived keys are different strings. -/
theorem statusRoundTrip_counterexample :
    lastActionGet (publishStatus [] (StatusKey "app1" "provision") "succeeded")
      "app1" "" "provision" = none ∧
    StatusKey "app1" "provision" ≠ lastActionStatusKey "app1" "" "provision" := by
  constructor
  · decide
  · decide

/-- C3 amended: for every instanceID and operation, the controller's
publish key `instanceID:operation` differs from the last-action lookup
key `instanceID:noplan:operation` (planID omitted), so an entry published
under the controller key is invisible to the last-action lookup: the
lookup over any store behaves as if the publication had not happened. -/
theorem statusRoundTrip_amended :
    (∀ i op, StatusKey i op ≠ lastActionStatusKey i "" op) ∧
    (∀ (s : List (String × String)) (i op v : String),
      lastActionGet (publishStatus s (StatusKey i op) v) i "" op = lastActionGet s i "" op) := by
  refine ⟨statusKey_ne_lastActionKey, ?_⟩
  intro s i op v
  have hne := statusKey_ne_lastActionKey i op
  simp [lastActionGet, publishStatus, List.find?_cons, beq_eq_false_iff_ne, hne]

/-! ## C2 : dependency wait termination -/

-- concrete scenario: dependency A always answers with a success body,
-- dependency B never does; the goroutines' clocks advance one second per
-- poll, so B's loop runs far past the 300-second budget
def c2Deps : List Dispatched := [⟨"A", "urlA"⟩, ⟨"B", "urlB"⟩]
def c2Bodies : String → Nat → String :=
  fun url _ => if url == "urlA" then "deploy Success" else "still deploying"
def c2Times : String → Nat → Nat := fun _ i => i
def c2Starts : String → Nat := fun _ => 0

/-- C2: the timeout guard compares two second-of-minute values (each in
`0..59`), so their difference never exceeds the 300-second budget and the
guard never fires; consequently, with dependency B never reporting
success, `waitForDependencies` never returns however long it runs (for
every iteration bound), while dependency A's goroutine returns on its
first poll without recording an error. -/
theorem waitForDependencies_never_returns_on_failure :
    (∀ a b : Nat, (goSecond a : Int) - (goSecond b : Int) < 300) ∧
    (∀ fuel, waitForDependencies c2Bodies c2Times c2Starts c2Deps fuel = none) ∧
    depPoll (c2Bodies "urlA") (c2Times "urlA") "A" 0 0 [] 1 = some [] := by
  refine ⟨?_, ?_, by decide⟩
  · intro a b
    simp only [goSecond]
    omega
  · intro fuel
    have hB : ∀ j, goContains (goToLower ((c2Bodies "urlB") j)) "success" = false := by
      intro j
      show goContains (goToLower "still deploying") "success" = false
      decide
    have hnone := depPoll_no_success (c2Bodies "urlB") (c2Times "urlB") "B" 0 hB fuel 0 []
    simp [waitForDependencies, c2Deps, hnone]
    exact fun _ => hnone

/-! ## C4 : wait-group accounting of the watch goroutine -/

/-- C4: the schedule in which the parent thread performs the strategy's
`Add(1)`, the goroutine spawn, the deferred `Done()` and then the
controller's `Wait()` before the watch goroutine gets to run is valid —
the counter is back at zero when `Wait` executes — and it leaves the
controller returned (`parentPc = 4`) while the spawned watch goroutine
has not finished (indeed has not even registered: `watcherPc = 0`).
`Configure` can therefore return with a job-watch goroutine spawned
during the call still unaccounted for. -/
theorem configure_can_return_before_watcher_done :
    (runSched [true, true, true, true] wgInit).parentPc = 4 ∧
    (runSched [true, true, true, true] wgInit).watcherSpawned = true ∧
    (runSched [true, true, true, true] wgInit).watcherPc = 0 := by
  decide

/-! ## C1 : aggregation of configurer errors -/

def c1Deployment : DeploymentConfig := ⟨"app1", [("rhmap/name", "cloudapp")], []⟩
def c1MongoSvc : DeploymentConfig := ⟨"mongo-1", [("rhmap/name", "data-mongo")], []⟩
def c1Client : Client :=
  { getDeploymentConfigByName := fun _ _ => .ok (some c1Deployment),
    findDeploymentConfigsByLabel := fun _ _ => .ok [c1MongoSvc],
    updateDeployConfigInNamespace := fun _ d => .ok d,
    findJobByName := fun _ _ => .ok none,
    findServiceByLabel := fun _ _ => .ok [],
    createJobToWatch := fun _ _ => .error "unused" }
def c1ConfigurerErr : String → Option String :=
  fun s => if s == "data-mongo" then some "boom" else none
def c1Config : Configuration := ⟨"app1", "test", "provision", "inst1"⟩

/-- C1: a run in which the data-mongo configurer fails with "boom" still
persists the descriptor and still invokes the configurer, but `Configure`
returns a nil error and publishes the terminal success status — the
failing configurer's message is dropped because the result of
`c.Configure` is never assigned and the stale `err` variable is tested
instead, so the error list stays empty. -/
theorem configure_drops_configurer_errors :
    (controllerConfigure c1Client c1ConfigurerErr c1Config).err = none ∧
    c1ConfigurerErr "data-mongo" = some "boom" ∧
    (controllerConfigure c1Client c1ConfigurerErr c1Config).actions.contains
      (.invoke "data-mongo") = true ∧
    (controllerConfigure c1Client c1ConfigurerErr c1Config).actions.contains
      (.updateDeploy "test" "app1") = true ∧
    (controllerConfigure c1Client c1ConfigurerErr c1Config).actions.contains
      (.publish (StatusKey "inst1" "provision") configComplete
        "service configuration complete") = true := by
  decide

/-! ## C5 : per-call deduplication of service kinds -/

/-- The service names for which the loop invoked the Factory/Configure
pair, in invocation order, read off a configuration action trace. -/
def invokedServices : List ConfigAction → List String
  | [] => []
  | .invoke s :: rest => s :: invokedServices rest
  | .publish _ _ _ :: rest => invokedServices rest
  | .templateLoad _ :: rest => invokedServices rest
  | .templateExec _ :: rest => invokedServices rest
  | .jobDecode :: rest => invokedServices rest
  | .jobSubmit _ :: rest => invokedServices rest
  | .spawnWatcher :: rest => invokedServices rest
  | .updateDeploy _ _ :: rest => invokedServices rest

theorem invokedServices_append (a b : List ConfigAction) :
    invokedServices (a ++ b) = invokedServices a ++ invokedServices b := by
  induction a with
  | nil => rfl
  | cons x rest ih => cases x <;> simp [invokedServices, ih]

/-- Loop invariant of the configured-set: the invoked service names are
pairwise distinct and disjoint from the configured-set passed in. -/
theorem configureLoop_invoked_nodup (sk : String) (ce : String → Option String)
    (ge : Option String) :
    ∀ (services : List DeploymentConfig) (configured errs : List String),
      (invokedServices (configureLoop sk ce ge services configured errs).2.2).Nodup ∧
      ∀ x ∈ invokedServices (configureLoop sk ce ge services configured errs).2.2,
        x ∉ configured := by
  intro services
  induction services with
  | nil => intro configured errs; simp [configureLoop, invokedServices]
  | cons s rest ih =>
    intro configured errs
    cases hc : configured.contains (lookupStrD s.labels "rhmap/name") with
    | true =>
      have heq : configureLoop sk ce ge (s :: rest) configured errs =
          configureLoop sk ce ge rest configured errs := by
        simp only [configureLoop, hc, if_true]
      rw [heq]
      exact ih configured errs
    | false =>
      have heq : (configureLoop sk ce ge (s :: rest) configured errs).2.2 =
          [ConfigAction.publish sk configInProgress
              ("configuring " ++ lookupStrD s.labels "rhmap/name"),
            ConfigAction.invoke (lookupStrD s.labels "rhmap/name")] ++
          (configureLoop sk ce ge rest (lookupStrD s.labels "rhmap/name" :: configured)
            (appendErr ge errs)).2.2 := by
        simp only [configureLoop, hc, Bool.false_eq_true, if_false]
      obtain ⟨ihnd, ihmem⟩ := ih (lookupStrD s.labels "rhmap/name" :: configured)
        (appendErr ge errs)
      have hnm : lookupStrD s.labels "rhmap/name" ∉ configured := by
        intro hmem2
        have h2 : configured.contains (lookupStrD s.labels "rhmap/name") = true :=
          List.elem_iff.mpr hmem2
        rw [hc] at h2
        cases h2
      rw [heq, invokedServices_append]
      simp only [invokedServices, List.singleton_append, List.cons_append, List.nil_append]
      constructor
      · refine List.nodup_cons.mpr ⟨?_, ihnd⟩
        intro hx
        exact (ihmem _ hx) (List.mem_cons_self _ _)
      · intro x hx
        rcases List.mem_cons.mp hx with hx | hx
        · exact hx ▸ hnm
        · exact fun hxc => (ihmem x hx) (List.mem_cons_of_mem _ hxc)

/-- C5: for every client, configurer outcome assignment and
configuration — in particular for sibling lists where several descriptors
carry the same service-name label — the list of service names for which
`Configure`'s loop invoked the Factory/Configure pair has no duplicates:
no service name is processed twice within a single `Configure` call. -/
theorem configure_invokes_each_service_at_most_once (client : Client)
    (configurerErr : String → Option String) (config : Configuration) :
    (invokedServices (controllerConfigure client configurerErr config).actions).Nodup := by
  simp only [controllerConfigure]
  cases h1 : client.getDeploymentConfigByName config.nameSpace config.deploymentName with
  | error e => simp [invokedServices]
  | ok od =>
    cases od with
    | none => simp [invokedServices]
    | some deployment =>
      cases h2 : client.findDeploymentConfigsByLabel config.nameSpace
          [("rhmap/type", "environmentService")] with
      | error e => simp [invokedServices]
      | ok services =>
        obtain ⟨hnd, -⟩ := configureLoop_invoked_nodup
          (StatusKey config.instanceID config.action) configurerErr none services [] []
        cases h3 : client.updateDeployConfigInNamespace config.nameSpace deployment with
        | error e =>
          simp [h3, invokedServices_append, invokedServices, hnd]
        | ok d2 =>
          simp only [h3]
          split
          · simp [invokedServices_append, invokedServices, hnd]
          · simp [invokedServices_append, invokedServices, hnd]

/-! ## Witness scenario data -/

def wTl : TemplateLoader := ⟨fun _ => .error "unused"⟩
def wDec : List Nat → Except String Job := fun _ => .error "unused"
def wDraws : Nat → Nat := fun _ => 0
def wDepCache : DeploymentConfig := ⟨"cache-1", [("rhmap/name", "cache")], []⟩
def wDepMongo : DeploymentConfig := ⟨"mongo-1", [("rhmap/name", "data-mongo")], []⟩
def wDepMysql : DeploymentConfig := ⟨"mysql-1", [("rhmap/name", "data-mysql")], []⟩
def wDepApp : DeploymentConfig := ⟨"app1", [("rhmap/name", "cloudapp")], []⟩

/-- A data descriptor whose single container env carries no
admin-credential entry of either database kind. -/
def wDataDcNoPass : DeploymentConfig :=
  ⟨"data-1", [], [⟨[⟨"SOME_OTHER_VAR", "x"⟩]⟩]⟩

def wC6Client : Client :=
  { getDeploymentConfigByName := fun _ _ => .error "unused",
    findDeploymentConfigsByLabel := fun _ _ => .ok [wDataDcNoPass],
    updateDeployConfigInNamespace := fun _ d => .ok d,
    findJobByName := fun _ _ => .ok (some ⟨⟩),
    findServiceByLabel := fun _ _ => .ok [],
    createJobToWatch := fun _ _ => .error "unused" }

def wC7Client : Client :=
  { getDeploymentConfigByName := fun _ _ => .error "unused",
    findDeploymentConfigsByLabel := fun _ _ => .ok [wDataDcNoPass],
    updateDeployConfigInNamespace := fun _ d => .ok d,
    findJobByName := fun _ _ => .ok none,
    findServiceByLabel := fun _ _ => .ok [⟨"data-svc"⟩],
    createJobToWatch := fun _ _ => .error "unused" }

def wC10Client : Client :=
  { getDeploymentConfigByName := fun _ _ => .error "unused",
    findDeploymentConfigsByLabel := fun _ _ => .ok [wDataDcNoPass],
    updateDeployConfigInNamespace := fun _ d => .ok d,
    findJobByName := fun _ _ => .error "etcd is down",
    findServiceByLabel := fun _ _ => .ok [],
    createJobToWatch := fun _ _ => .error "unused" }

/-! ## C8 : own-kind short circuit -/

/-- C8: each strategy, when the target descriptor's `rhmap/name` label
equals the strategy's own service kind (`cache`, `data-mongo`,
`data-mysql`), returns the descriptor unchanged with a nil error, its
trace holding only the two in-progress publications — no template load,
no decode, no submission, no watcher spawn, no env rewrite. -/
theorem own_kind_label_short_circuits :
    (∀ (sk : String) (dep : DeploymentConfig) (ns : String),
      lookupStr dep.labels "rhmap/name" = some "cache" →
      cacheRedisConfigure sk dep ns =
        { dc := some dep, err := none,
          actions := [.publish sk configInProgress "starting configuration of cache ",
            .publish sk configInProgress "no need to configure own DeploymentConfig "] }) ∧
    (∀ (sk : String) (tl : TemplateLoader) (dec : List Nat → Except String Job)
      (draws : Nat → Nat) (client : Client) (dep : DeploymentConfig) (ns : String),
      lookupStr dep.labels "rhmap/name" = some dataMongoEsName →
      dataMongoConfigure sk tl dec draws client dep ns =
        { dc := some dep, err := none,
          actions := [.publish sk configInProgress
              ("starting configuration of data-mongo service for " ++ dep.name),
            .publish sk configInProgress "no need to configure data-mongo DeploymentConfig "] }) ∧
    (∀ (sk : String) (tl : TemplateLoader) (dec : List Nat → Except String Job)
      (draws : Nat → Nat) (client : Client) (dep : DeploymentConfig) (ns : String),
      lookupStr dep.labels "rhmap/name" = some templateDataMysql →
      dataMysqlConfigure sk tl dec draws client dep ns =
        { dc := some dep, err := none,
          actions := [.publish sk configInProgress
              ("starting configuration of data service for " ++ dep.name),
            .publish sk configInProgress "no need to configure data-mysql DeploymentConfig "] }) := by
  refine ⟨?_, ?_, ?_⟩
  · intro sk dep ns h
    simp [cacheRedisConfigure, h]
  · intro sk tl dec draws client dep ns h
    simp [dataMongoConfigure, h]
  · intro sk tl dec draws client dep ns h
    simp [dataMysqlConfigure, h]

/-- Witness for C8 at concrete own-kind descriptors. -/
theorem own_kind_label_short_circuits_witness :
    cacheRedisConfigure "k" wDepCache "test" =
      { dc := some wDepCache, err := none,
        actions := [.publish "k" configInProgress "starting configuration of cache ",
          .publish "k" configInProgress "no need to configure own DeploymentConfig "] } ∧
    dataMongoConfigure "k" wTl wDec wDraws wC6Client wDepMongo "test" =
      { dc := some wDepMongo, err := none,
        actions := [.publish "k" configInProgress
            ("starting configuration of data-mongo service for " ++ wDepMongo.name),
          .publish "k" configInProgress "no need to configure data-mongo DeploymentConfig "] } ∧
    dataMysqlConfigure "k" wTl wDec wDraws wC6Client wDepMysql "test" =
      { dc := some wDepMysql, err := none,
        actions := [.publish "k" configInProgress
            ("starting configuration of data service for " ++ wDepMysql.name),
          .publish "k" configInProgress "no need to configure data-mysql DeploymentConfig "] } :=
  ⟨own_kind_label_short_circuits.1 "k" wDepCache "test" (by decide),
   own_kind_label_short_circuits.2.1 "k" wTl wDec wDraws wC6Client wDepMongo "test" (by decide),
   own_kind_label_short_circuits.2.2 "k" wTl wDec wDraws wC6Client wDepMysql "test" (by decide)⟩

/-! ## C6 : existing provisioning job short circuit -/

/-- C6: for both database strategies, when `FindJobByName` reports an
existing `<name>-dataconfig-job`, `Configure` returns the deployment with
a nil error and its trace holds only the start publication and the
"complete" publication — no template load, no decode, no submission (for
mysql this is conditional on the data descriptor lookup having succeeded
non-empty, which the code performs first). -/
theorem existing_job_short_circuits :
    (∀ (sk : String) (tl : TemplateLoader) (dec : List Nat → Except String Job)
      (draws : Nat → Nat) (client : Client) (dep : DeploymentConfig) (ns : String) (j : Job),
      lookupStr dep.labels "rhmap/name" ≠ some dataMongoEsName →
      client.findJobByName ns (dep.name ++ "-dataconfig-job") = .ok (some j) →
      dataMongoConfigure sk tl dec draws client dep ns =
        { dc := some dep, err := none,
          actions := [.publish sk configInProgress
              ("starting configuration of data-mongo service for " ++ dep.name),
            .publish sk "complete" ("configuration job " ++ dep.name ++
              "-dataconfig-job already exists. No need to run again ")] }) ∧
    (∀ (sk : String) (tl : TemplateLoader) (dec : List Nat → Except String Job)
      (draws : Nat → Nat) (client : Client) (dep : DeploymentConfig) (ns : String) (j : Job)
      (dcs : List DeploymentConfig),
      lookupStr dep.labels "rhmap/name" ≠ some templateDataMysql →
      client.findDeploymentConfigsByLabel ns [("rhmap/name", templateDataMysql)] = .ok dcs →
      dcs ≠ [] →
      client.findJobByName ns (dep.name ++ "-dataconfig-job") = .ok (some j) →
      dataMysqlConfigure sk tl dec draws client dep ns =
        { dc := some dep, err := none,
          actions := [.publish sk configInProgress
              ("starting configuration of data service for " ++ dep.name),
            .publish sk "complete" ("configuration job " ++ dep.name ++
              "-dataconfig-job already exists. No need to run again ")] }) := by
  constructor
  · intro sk tl dec draws client dep ns j h1 h2
    have h1b : (lookupStr dep.labels "rhmap/name" == some dataMongoEsName) = false :=
      beq_eq_false_iff_ne.mpr h1
    simp [dataMongoConfigure, h1b, h2]
  · intro sk tl dec draws client dep ns j dcs h1 h3 hdc h2
    have h1b : (lookupStr dep.labels "rhmap/name" == some templateDataMysql) = false :=
      beq_eq_false_iff_ne.mpr h1
    simp [dataMysqlConfigure, h1b, h2, h3, hdc]

/-- Witness for C6 at a concrete client that reports an existing job. -/
theorem existing_job_short_circuits_witness :
    dataMongoConfigure "k" wTl wDec wDraws wC6Client wDepApp "test" =
      { dc := some wDepApp, err := none,
        actions := [.publish "k" configInProgress
            ("starting configuration of data-mongo service for " ++ wDepApp.name),
          .publish "k" "complete" ("configuration job " ++ wDepApp.name ++
            "-dataconfig-job already exists. No need to run again ")] } ∧
    dataMysqlConfigure "k" wTl wDec wDraws wC6Client wDepApp "test" =
      { dc := some wDepApp, err := none,
        actions := [.publish "k" configInProgress
            ("starting configuration of data service for " ++ wDepApp.name),
          .publish "k" "complete" ("configuration job " ++ wDepApp.name ++
            "-dataconfig-job already exists. No need to run again ")] } :=
  ⟨existing_job_short_circuits.1 "k" wTl wDec wDraws wC6Client wDepApp "test" ⟨⟩
      (by decide) rfl,
   existing_job_short_circuits.2 "k" wTl wDec wDraws wC6Client wDepApp "test" ⟨⟩
      [wDataDcNoPass] (by decide) rfl (by decide) rfl⟩

/-! ## C7 : missing admin credential -/

/-- If no env entry of the data descriptor is named
`MONGODB_ADMIN_PASSWORD`, the mongo env scan leaves the found flag
false. -/
theorem mongoEnvScan_not_found :
    ∀ (env : List EnvVar) (opts : JobOpts),
      (∀ ev ∈ env, (ev.name == "MONGODB_ADMIN_PASSWORD") = false) →
      (mongoEnvScan env opts false).2 = false := by
  intro env
  induction env with
  | nil => intro opts h; rfl
  | cons e rest ih =>
    intro opts h
    have he := h e (List.mem_cons_self _ _)
    simp only [mongoEnvScan, he, Bool.false_eq_true, if_false]
    exact ih _ (fun ev hv => h ev (List.mem_cons_of_mem _ hv))

/-- C7: for both database strategies, when the sibling data descriptor's
first container env lacks the expected admin-credential entry
(`MONGODB_ADMIN_PASSWORD` / `MYSQL_ROOT_PASSWORD`), `Configure` returns a
non-nil error, publishes a terminal failure status, and its trace holds
no template load, no decode and no submission. -/
theorem missing_admin_password_errors_without_job :
    (∀ (sk : String) (tl : TemplateLoader) (dec : List Nat → Except String Job)
      (draws : Nat → Nat) (client : Client) (dep : DeploymentConfig) (ns : String)
      (dcs : List DeploymentConfig) (svcs : List Service),
      lookupStr dep.labels "rhmap/name" ≠ some dataMongoEsName →
      client.findJobByName ns (dep.name ++ "-dataconfig-job") = .ok none →
      client.findDeploymentConfigsByLabel ns [("rhmap/name", dataMongoEsName)] = .ok dcs →
      dcs ≠ [] →
      client.findServiceByLabel ns [("rhmap/name", dataMongoEsName)] = .ok svcs →
      svcs ≠ [] →
      (∀ ev ∈ ((dcs.headD ⟨"", [], []⟩).containers.headD ⟨[]⟩).env,
        (ev.name == "MONGODB_ADMIN_PASSWORD") = false) →
      dataMongoConfigure sk tl dec draws client dep ns =
        { dc := none, err := some "expected to find an admin password but there was non present",
          actions := [.publish sk configInProgress
              ("starting configuration of data-mongo service for " ++ dep.name),
            .publish sk configError "expected to find an admin password but there was non present"] }) ∧
    (∀ (sk : String) (tl : TemplateLoader) (dec : List Nat → Except String Job)
      (draws : Nat → Nat) (client : Client) (dep : DeploymentConfig) (ns : String)
      (dcs : List DeploymentConfig) (svcs : List Service),
      lookupStr dep.labels "rhmap/name" ≠ some templateDataMysql →
      client.findDeploymentConfigsByLabel ns [("rhmap/name", templateDataMysql)] = .ok dcs →
      dcs ≠ [] →
      client.findJobByName ns (dep.name ++ "-dataconfig-job") = .ok none →
      client.findServiceByLabel ns [("rhmap/name", templateDataMysql)] = .ok svcs →
      svcs ≠ [] →
      (∀ ev ∈ ((dcs.headD ⟨"", [], []⟩).containers.headD ⟨[]⟩).env,
        (ev.name == "MYSQL_ROOT_PASSWORD") = false) →
      dataMysqlConfigure sk tl dec draws client dep ns =
        { dc := none,
          err := some "expected to find an env var: MYSQL_ROOT_PASSWORD but it was not present",
          actions := [.publish sk configInProgress
              ("starting configuration of data service for " ++ dep.name),
            .publish sk configError
              "expected to find an env var: MYSQL_ROOT_PASSWORD but it was not present"] }) := by
  constructor
  · intro sk tl dec draws client dep ns dcs svcs h1 h2 h3 hdc h5 hsvc henv
    have h1b : (lookupStr dep.labels "rhmap/name" == some dataMongoEsName) = false :=
      beq_eq_false_iff_ne.mpr h1
    have hscan := mongoEnvScan_not_found
      ((dcs.headD ⟨"", [], []⟩).containers.headD ⟨[]⟩).env [] henv
    simp only [List.headD_eq_head?_getD] at hscan
    simp [dataMongoConfigure, h1b, h2, h3, hdc, h5, hsvc, hscan]
  · intro sk tl dec draws client dep ns dcs svcs h1 h3 hdc h2 h5 hsvc henv
    have h1b : (lookupStr dep.labels "rhmap/name" == some templateDataMysql) = false :=
      beq_eq_false_iff_ne.mpr h1
    have hf : (((dcs.headD ⟨"", [], []⟩).containers.headD ⟨[]⟩).env).find?
        (fun e => e.name == "MYSQL_ROOT_PASSWORD") = none :=
      List.find?_eq_none.mpr (fun x hx => by simp [henv x hx])
    simp only [List.headD_eq_head?_getD] at hf
    simp [dataMysqlConfigure, h1b, h2, h3, hdc, h5, hsvc, hf]

/-- Witness for C7 at a concrete data descriptor lacking both
admin-credential entries. -/
theorem missing_admin_password_errors_without_job_witness :
    dataMongoConfigure "k" wTl wDec wDraws wC7Client wDepApp "test" =
      { dc := none, err := some "expected to find an admin password but there was non present",
        actions := [.publish "k" configInProgress
            ("starting configuration of data-mongo service for " ++ wDepApp.name),
          .publish "k" configError "expected to find an admin password but there was non present"] } ∧
    dataMysqlConfigure "k" wTl wDec wDraws wC7Client wDepApp "test" =
      { dc := none,
        err := some "expected to find an env var: MYSQL_ROOT_PASSWORD but it was not present",
        actions := [.publish "k" configInProgress
            ("starting configuration of data service for " ++ wDepApp.name),
          .publish "k" configError
            "expected to find an env var: MYSQL_ROOT_PASSWORD but it was not present"] } :=
  ⟨missing_admin_password_errors_without_job.1 "k" wTl wDec wDraws wC7Client wDepApp "test"
      [wDataDcNoPass] [⟨"data-svc"⟩] (by decide) rfl rfl (by decide) rfl (by decide) (by decide),
   missing_admin_password_errors_without_job.2 "k" wTl wDec wDraws wC7Client wDepApp "test"
      [wDataDcNoPass] [⟨"data-svc"⟩] (by decide) rfl (by decide) rfl rfl (by decide) (by decide)⟩

/-! ## C10 : job lookup failure returns nil error -/

/-- C10: for both database strategies, a failing `FindJobByName` lookup
publishes an "error" status but `Configure` returns the deployment with a
nil error — the lookup failure is not surfaced to the caller, and nothing
beyond the two publications happens (no job is ever submitted). -/
theorem job_lookup_failure_returns_nil_error :
    (∀ (sk : String) (tl : TemplateLoader) (dec : List Nat → Except String Job)
      (draws : Nat → Nat) (client : Client) (dep : DeploymentConfig) (ns : String) (e : String),
      lookupStr dep.labels "rhmap/name" ≠ some dataMongoEsName →
      client.findJobByName ns (dep.name ++ "-dataconfig-job") = .error e →
      dataMongoConfigure sk tl dec draws client dep ns =
        { dc := some dep, err := none,
          actions := [.publish sk configInProgress
              ("starting configuration of data-mongo service for " ++ dep.name),
            .publish sk "error" ("error finding existing Job " ++ e)] }) ∧
    (∀ (sk : String) (tl : TemplateLoader) (dec : List Nat → Except String Job)
      (draws : Nat → Nat) (client : Client) (dep : DeploymentConfig) (ns : String) (e : String)
      (dcs : List DeploymentConfig),
      lookupStr dep.labels "rhmap/name" ≠ some templateDataMysql →
      client.findDeploymentConfigsByLabel ns [("rhmap/name", templateDataMysql)] = .ok dcs →
      dcs ≠ [] →
      client.findJobByName ns (dep.name ++ "-dataconfig-job") = .error e →
      dataMysqlConfigure sk tl dec draws client dep ns =
        { dc := some dep, err := none,
          actions := [.publish sk configInProgress
              ("starting configuration of data service for " ++ dep.name),
            .publish sk "error" ("error finding existing Job " ++ e)] }) := by
  constructor
  · intro sk tl dec draws client dep ns e h1 h2
    have h1b : (lookupStr dep.labels "rhmap/name" == some dataMongoEsName) = false :=
      beq_eq_false_iff_ne.mpr h1
    simp [dataMongoConfigure, h1b, h2]
  · intro sk tl dec draws client dep ns e dcs h1 h3 hdc h2
    have h1b : (lookupStr dep.labels "rhmap/name" == some templateDataMysql) = false :=
      beq_eq_false_iff_ne.mpr h1
    simp [dataMysqlConfigure, h1b, h2, h3, hdc]

/-- Witness for C10 at a concrete client whose job lookup fails. -/
theorem job_lookup_failure_returns_nil_error_witness :
    dataMongoConfigure "k" wTl wDec wDraws wC10Client wDepApp "test" =
      { dc := some wDepApp, err := none,
        actions := [.publish "k" configInProgress
            ("starting configuration of data-mongo service for " ++ wDepApp.name),
          .publish "k" "error" ("error finding existing Job " ++ "etcd is down")] } ∧
    dataMysqlConfigure "k" wTl wDec wDraws wC10Client wDepApp "test" =
      { dc := some wDepApp, err := none,
        actions := [.publish "k" configInProgress
            ("starting configuration of data service for " ++ wDepApp.name),
          .publish "k" "error" ("error finding existing Job " ++ "etcd is down")] } :=
  ⟨job_lookup_failure_returns_nil_error.1 "k" wTl wDec wDraws wC10Client wDepApp "test"
      "etcd is down" (by decide) rfl,
   job_lookup_failure_returns_nil_error.2 "k" wTl wDec wDraws wC10Client wDepApp "test"
      "etcd is down" [wDataDcNoPass] (by decide) rfl (by decide) rfl⟩

/-! ## C9 : job-submission failure -/

/-- Setting one job-option key leaves lookups of any other key
unchanged. -/
theorem lookupStr_set_ne (k v k2 : String) (h : k2 ≠ k) :
    ∀ m : JobOpts, lookupStr (JobOpts.set m k v) k2 = lookupStr m k2 := by
  have hkk : (k == k2) = false := beq_eq_false_iff_ne.mpr (Ne.symm h)
  intro m
  induction m with
  | nil => simp [JobOpts.set, lookupStr, List.find?, hkk]
  | cons p rest ih =>
    by_cases hp : p.1 = k
    · have hp2 : (p.1 == k2) = false := beq_eq_false_iff_ne.mpr (hp ▸ Ne.symm h)
      have hpne : (p.1 != k) = false := by simp [hp]
      simp only [JobOpts.set, List.filter_cons, hpne, Bool.false_eq_true, if_false] at *
      simp [lookupStr, List.find?, hp2] at ih ⊢
      exact ih
    · have hpne : (p.1 != k) = true := by simp [hp]
      simp only [JobOpts.set, List.filter_cons, hpne, if_true] at *
      by_cases hp2 : (p.1 == k2) = true
      · simp [lookupStr, List.find?, hp2]
      · simp only [Bool.not_eq_true] at hp2
        simp [lookupStr, List.find?, hp2] at ih ⊢
        exact ih

-- concrete submit-failure scenario: everything succeeds up to
-- CreateJobToWatch, which fails
def w9DataDcMysql : DeploymentConfig :=
  ⟨"data-mysql-1", [], [⟨[⟨"MYSQL_ROOT_PASSWORD", "rootpw"⟩]⟩]⟩
def w9DataDcMongo : DeploymentConfig :=
  ⟨"data-mongo-1", [],
    [⟨[⟨"MONGODB_ADMIN_PASSWORD", "adminpw"⟩, ⟨"MONGODB_REPLICA_NAME", "rs0"⟩]⟩]⟩
def w9Dep : DeploymentConfig :=
  ⟨"app1", [("rhmap/name", "cloudapp"), ("rhmap/guid", "guid1")], []⟩
def w9Tpl : Template := ⟨fun _ _ => .ok []⟩
def w9Tl : TemplateLoader := ⟨fun _ => .ok w9Tpl⟩
def w9Dec : List Nat → Except String Job := fun _ => .ok ⟨⟩
def w9Client : Client :=
  { getDeploymentConfigByName := fun _ _ => .error "unused",
    findDeploymentConfigsByLabel := fun _ _ => .ok [w9DataDcMysql],
    updateDeployConfigInNamespace := fun _ d => .ok d,
    findJobByName := fun _ _ => .ok none,
    findServiceByLabel := fun _ _ => .ok [⟨"data-mysql"⟩],
    createJobToWatch := fun _ _ => .error "cannot submit" }
def w9ClientMongo : Client :=
  { getDeploymentConfigByName := fun _ _ => .error "unused",
    findDeploymentConfigsByLabel := fun _ _ => .ok [w9DataDcMongo],
    updateDeployConfigInNamespace := fun _ d => .ok d,
    findJobByName := fun _ _ => .ok none,
    findServiceByLabel := fun _ _ => .ok [⟨"data-mongo"⟩],
    createJobToWatch := fun _ _ => .error "cannot submit" }

/-- C9 counterexample: a mysql run whose job submission fails.  The
spawned goroutine publishes the terminal failure status, but `Configure`
has already returned the deployment with a nil error — the caller never
receives the submission error. -/
theorem mysql_submit_failure_returns_nil_error :
    (dataMysqlConfigure "k" w9Tl w9Dec wDraws w9Client w9Dep "test").err = none ∧
    (dataMysqlConfigure "k" w9Tl w9Dec wDraws w9Client w9Dep "test").spawnedJob = some ⟨⟩ ∧
    dataMysqlWatchStart "k" w9Client ⟨⟩ "test" =
      [.jobSubmit "test",
        .publish "k" configError "failed to CreateJobToWatch cannot submit"] := by
  decide

/-- C9 amended: a `CreateJobToWatch` failure is published as a terminal
failure status by both database strategies, but only the mongo strategy
(which submits synchronously) also returns the error to `Configure`'s
caller; the mysql strategy submits inside the spawned watch goroutine and
`Configure` returns the deployment with a nil error. -/
theorem job_submit_failure_amended :
    (∀ (sk : String) (tl : TemplateLoader) (tpl : Template) (buf : List Nat)
      (dec : List Nat → Except String Job) (j : Job) (draws : Nat → Nat)
      (client : Client) (dep : DeploymentConfig) (ns : String)
      (dcs : List DeploymentConfig) (svcs : List Service) (rs e : String),
      lookupStr dep.labels "rhmap/name" ≠ some dataMongoEsName →
      client.findJobByName ns (dep.name ++ "-dataconfig-job") = .ok none →
      client.findDeploymentConfigsByLabel ns [("rhmap/name", dataMongoEsName)] = .ok dcs →
      dcs ≠ [] →
      client.findServiceByLabel ns [("rhmap/name", dataMongoEsName)] = .ok svcs →
      svcs ≠ [] →
      (mongoEnvScan ((dcs.headD ⟨"", [], []⟩).containers.headD ⟨[]⟩).env [] false).2 = true →
      lookupStr (mongoEnvScan ((dcs.headD ⟨"", [], []⟩).containers.headD ⟨[]⟩).env []
        false).1 "replicaSet" = some rs →
      tl.load "data-mongo-job" = .ok tpl →
      (∀ opts, tpl.executeTemplate "data-mongo-job" opts = .ok buf) →
      dec buf = .ok j →
      client.createJobToWatch j ns = .error e →
      (dataMongoConfigure sk tl dec draws client dep ns).err = some e ∧
      (dataMongoConfigure sk tl dec draws client dep ns).actions =
        [.publish sk configInProgress
            ("starting configuration of data-mongo service for " ++ dep.name),
          .templateLoad "data-mongo-job", .templateExec "data-mongo-job", .jobDecode,
          .jobSubmit ns, .publish sk configError ("failed to CreateJobToWatch " ++ e)]) ∧
    (∀ (sk : String) (tl : TemplateLoader) (tpl : Template) (buf : List Nat)
      (dec : List Nat → Except String Job) (j : Job) (draws : Nat → Nat)
      (client : Client) (dep : DeploymentConfig) (ns : String)
      (dcs : List DeploymentConfig) (svcs : List Service) (pw : EnvVar) (g e : String),
      lookupStr dep.labels "rhmap/name" ≠ some templateDataMysql →
      client.findDeploymentConfigsByLabel ns [("rhmap/name", templateDataMysql)] = .ok dcs →
      dcs ≠ [] →
      client.findJobByName ns (dep.name ++ "-dataconfig-job") = .ok none →
      client.findServiceByLabel ns [("rhmap/name", templateDataMysql)] = .ok svcs →
      svcs ≠ [] →
      (((dcs.headD ⟨"", [], []⟩).containers.headD ⟨[]⟩).env).find?
        (fun ev => ev.name == "MYSQL_ROOT_PASSWORD") = some pw →
      lookupStr dep.labels "rhmap/guid" = some g →
      tl.load "data-mysql-job" = .ok tpl →
      (∀ opts, tpl.executeTemplate "data-mysql-job" opts = .ok buf) →
      dec buf = .ok j →
      client.createJobToWatch j ns = .error e →
      (dataMysqlConfigure sk tl dec draws client dep ns).err = none ∧
      (dataMysqlConfigure sk tl dec draws client dep ns).spawnedJob = some j ∧
      (dataMysqlConfigure sk tl dec draws client dep ns).actions =
        [.publish sk configInProgress
            ("starting configuration of data service for " ++ dep.name),
          .templateLoad "data-mysql-job", .templateExec "data-mysql-job", .jobDecode,
          .spawnWatcher] ∧
      dataMysqlWatchStart sk client j ns =
        [.jobSubmit ns, .publish sk configError ("failed to CreateJobToWatch " ++ e)]) := by
  constructor
  · intro sk tl tpl buf dec j draws client dep ns dcs svcs rs e
      h1 h2 h3 hdc h5 hsvc hscan hrep htl hexec hdecd hsub
    have h1b : (lookupStr dep.labels "rhmap/name" == some dataMongoEsName) = false :=
      beq_eq_false_iff_ne.mpr h1
    simp only [List.headD_eq_head?_getD] at hscan hrep
    cases hrs : (rs == "") <;> rcases hg : lookupStr dep.labels "rhmap/guid" with _ | g <;>
      simp [dataMongoConfigure, h1b, h2, h3, hdc, h5, hsvc, hscan, hg, htl, hexec, hdecd,
        hsub, lookupStr_set_ne, hrep, constructMongoURL, hrs]
  · intro sk tl tpl buf dec j draws client dep ns dcs svcs pw g e
      h1 h3 hdc h2 h5 hsvc hfind hguid htl hexec hdecd hsub
    have h1b : (lookupStr dep.labels "rhmap/name" == some templateDataMysql) = false :=
      beq_eq_false_iff_ne.mpr h1
    simp only [List.headD_eq_head?_getD] at hfind
    refine ⟨?_, ?_, ?_, ?_⟩ <;>
      simp [dataMysqlConfigure, dataMysqlWatchStart, h1b, h2, h3, hdc, h5, hsvc, hfind,
        hguid, htl, hexec, hdecd, hsub]

/-- Witness for C9's amended statement at the concrete submit-failure
scenarios. -/
theorem job_submit_failure_amended_witness :
    ((dataMongoConfigure "k" w9Tl w9Dec wDraws w9ClientMongo w9Dep "test").err =
        some "cannot submit" ∧
      (dataMongoConfigure "k" w9Tl w9Dec wDraws w9ClientMongo w9Dep "test").actions =
        [.publish "k" configInProgress
            ("starting configuration of data-mongo service for " ++ w9Dep.name),
          .templateLoad "data-mongo-job", .templateExec "data-mongo-job", .jobDecode,
          .jobSubmit "test",
          .publish "k" configError ("failed to CreateJobToWatch " ++ "cannot submit")]) ∧
    ((dataMysqlConfigure "k" w9Tl w9Dec wDraws w9Client w9Dep "test").err = none ∧
      (dataMysqlConfigure "k" w9Tl w9Dec wDraws w9Client w9Dep "test").spawnedJob = some ⟨⟩ ∧
      (dataMysqlConfigure "k" w9Tl w9Dec wDraws w9Client w9Dep "test").actions =
        [.publish "k" configInProgress
            ("starting configuration of data service for " ++ w9Dep.name),
          .templateLoad "data-mysql-job", .templateExec "data-mysql-job", .jobDecode,
          .spawnWatcher] ∧
      dataMysqlWatchStart "k" w9Client ⟨⟩ "test" =
        [.jobSubmit "test",
          .publish "k" configError ("failed to CreateJobToWatch " ++ "cannot submit")]) :=
  ⟨job_submit_failure_amended.1 "k" w9Tl w9Tpl [] w9Dec ⟨⟩ wDraws w9ClientMongo w9Dep
      "test" [w9DataDcMongo] [⟨"data-mongo"⟩] "rs0" "cannot submit"
      (by decide) rfl rfl (by decide) rfl (by decide) (by decide) (by decide)
      rfl (fun _ => rfl) rfl rfl,
   job_submit_failure_amended.2 "k" w9Tl w9Tpl [] w9Dec ⟨⟩ wDraws w9Client w9Dep
      "test" [w9DataDcMysql] [⟨"data-mysql"⟩] ⟨"MYSQL_ROOT_PASSWORD", "rootpw"⟩ "guid1"
      "cannot submit"
      (by decide) rfl (by decide) rfl rfl (by decide) (by decide) (by decide)
      rfl (fun _ => rfl) rfl rfl⟩

end Negotiator
